import Mathlib

/-!
Shallow embedding of `libtx2bpmp/src/hsp.c` (NVIDIA TX2 HSP doorbell driver)
and verification of its specification.

Register memory is modelled as a map from byte addresses to 32-bit values;
a `uint32_t` load truncates to 32 bits.  Pointer arithmetic in the C source is
on `void *` bases plus byte offsets, so every address below is a byte address.
Each driver operation is embedded as a pure function that threads the register
state explicitly and additionally returns the list of register accesses it
performed, so that absence of reads/writes is expressible.
-/

namespace Tx2Hsp

/-- Register address space: byte address to stored value.  A 32-bit register
load truncates to 32 bits (`readReg`); a store keeps 32 bits (`writeReg`). -/
abbrev Mem := Nat → Nat

/-- A 32-bit load from a memory-mapped register at byte address `a`. -/
def readReg (m : Mem) (a : Nat) : Nat := m a % 2 ^ 32

/-- A 32-bit store to a memory-mapped register at byte address `a`. -/
def writeReg (m : Mem) (a : Nat) (v : Nat) : Mem :=
  fun x => if x = a then v % 2 ^ 32 else m x

/-- One register access performed by an operation: a load or a store. -/
inductive Access where
  | read (addr : Nat)
  | write (addr : Nat) (val : Nat)
deriving DecidableEq

/-- `BIT(n)` from `utils/util.h`. -/
def BIT (n : Nat) : Nat := 1 <<< n

def HSP_INT_DIMENSION_OFFSET : Nat := 0x380
def HSP_INT_DIMENSION_SM_SHIFT : Nat := 0
def HSP_INT_DIMENSION_SS_SHIFT : Nat := 4
def HSP_INT_DIMENSION_AS_SHIFT : Nat := 8
def HSP_INT_DIMENSION_NUM_MASK : Nat := 0xf

def HSP_DOORBELL_BLOCK_STRIDE : Nat := 0x100

def HSP_BITMAP_TZ_SECURE_SHFIT : Nat := 0
def HSP_BITMAP_TZ_NONSECURE_SHIFT : Nat := 16

/-- `enum dbell_reg_offset`. -/
def DBELL_TRIGGER : Nat := 0x0
def DBELL_ENABLE : Nat := 0x4
def DBELL_RAW : Nat := 0x8
def DBELL_PENDING : Nat := 0xc

/-- `enum dbell_bitmap_offset`. -/
def CCPLEX_BIT : Nat := BIT 1
def DPMU_BIT : Nat := BIT 2
def BPMP_BIT : Nat := BIT 3
def SPE_BIT : Nat := BIT 4
def CPE_BIT : Nat := BIT 5
def SCE_BIT : Nat := CPE_BIT
def DMA_BIT : Nat := BIT 6
def TSECA_BIT : Nat := BIT 7
def TSECB_BIT : Nat := BIT 8
def JTAGM_BIT : Nat := BIT 9
def CSITE_BIT : Nat := BIT 10
def APE_BIT : Nat := BIT 11

/-- Modelled from the spec: the doorbell-id enumeration `enum tx2_doorbell_id`
lives in the public header `tx2bpmp/hsp.h`, which is not part of the sources;
the spec describes it as a contiguous 0-based closed enumeration running from
the CCPLEX power-management doorbell up to the APE doorbell.  An id is carried
as an `Int` because the C enum can hold out-of-range values. -/
def CCPLEX_PM_DBELL : Int := 0
def CCPLEX_TZ_SECURE_DBELL : Int := 1
def CCPLEX_TZ_UNSECURE_DBELL : Int := 2
def BPMP_DBELL : Int := 3
def SPE_DBELL : Int := 4
def SCE_DBELL : Int := 5
def APE_DBELL : Int := 6

/-- Error numbers used through `-EINVAL` / `-ENOMEM` in the source. -/
def EINVAL : Int := 22
def ENOMEM : Int := 12

/-- `pmem_type_t` of the physical-memory region descriptor (platsupport). -/
inductive pmem_type where
  | PMEM_TYPE_RAM
  | PMEM_TYPE_DEVICE
deriving DecidableEq

/-- `pmem_region_t` (platsupport): a physical region descriptor. -/
structure pmem_region_t where
  type : pmem_type
  base_addr : Nat
  length : Nat
deriving DecidableEq

/-- `ps_mem_flags_t` (platsupport): access-pattern hint passed to the mapper
(`PS_MEM_NORMAL` = read/write, `PS_MEM_HR` = host mostly reads, `PS_MEM_HW` =
host mostly writes). -/
inductive ps_mem_flags where
  | PS_MEM_NORMAL
  | PS_MEM_HR
  | PS_MEM_HW
deriving DecidableEq

/-- Modelled from the spec: the fixed physical base `TX2_HSP_PADDR` and length
`TX2_HSP_SIZE` come from the platform header, which is not part of the
sources; the spec only requires them to be fixed constants, and no claim
depends on their numeric values. -/
def TX2_HSP_PADDR : Nat := 0x3c00000

def TX2_HSP_SIZE : Nat := 0xa0000

/-- `static pmem_region_t tx2_hsp_region`. -/
def tx2_hsp_region : pmem_region_t :=
  ⟨pmem_type.PMEM_TYPE_DEVICE, TX2_HSP_PADDR, TX2_HSP_SIZE⟩

/-- One invocation of `ps_pmem_map`, recorded argument by argument. -/
structure MapRequest where
  region : pmem_region_t
  cached : Bool
  flags : ps_mem_flags
deriving DecidableEq

/-- Modelled from the spec: the external memory-mapping service (`ps_io_ops_t`
from platsupport, not part of the sources).  `pmem_map` returns the mapped
virtual base address, `0` standing for `NULL` (mapping failure).
`ps_io_unmap` returns `void` in C, so the caller can observe nothing about its
outcome; `unmap_ok` records the service's internal success for a given
(virtual address, length) pair, purely so that theorems can talk about failed
unmaps. -/
structure ps_io_ops_t where
  pmem_map : pmem_region_t → Bool → ps_mem_flags → Nat
  unmap_ok : Nat → Nat → Bool

/-- `tx2_hsp_t`: the driver handle, holding the mapped HSP base and the
derived doorbell base (both byte addresses in the mapped space). -/
structure tx2_hsp_t where
  hsp_base : Nat
  doorbell_base : Nat
deriving DecidableEq

/-- `check_doorbell_id_is_valid`: an id is valid iff it lies in the closed
range `CCPLEX_PM_DBELL .. APE_DBELL`. -/
def check_doorbell_id_is_valid (db_id : Int) : Bool :=
  CCPLEX_PM_DBELL ≤ db_id && db_id ≤ APE_DBELL

/-- `tx2_hsp_get_doorbell_register`: byte address of register `offset` in the
doorbell window of `db_id`.  Only called with valid (hence non-negative) ids,
so the `Int` id is taken to `Nat`. -/
def tx2_hsp_get_doorbell_register (hsp : tx2_hsp_t) (db_id : Int) (offset : Nat) : Nat :=
  hsp.doorbell_base + db_id.toNat * HSP_DOORBELL_BLOCK_STRIDE + offset

/-- `tx2_hsp_init`.  A `none` handle or mapper models a NULL pointer argument.
Returns the C return value, the handle contents after the call, and the list
of mapping requests issued to the service.  On mapping failure the source has
already stored the NULL result into `hsp->hsp_base`. -/
def tx2_hsp_init (io_ops : Option ps_io_ops_t) (hsp : Option tx2_hsp_t) (m : Mem) :
    Int × Option tx2_hsp_t × List MapRequest :=
  match io_ops, hsp with
  | none, _ => (-EINVAL, hsp, [])
  | some _, none => (-EINVAL, none, [])
  | some ops, some h0 =>
    let base := ops.pmem_map tx2_hsp_region false ps_mem_flags.PS_MEM_NORMAL
    if base = 0 then
      (-ENOMEM, some ⟨0, h0.doorbell_base⟩, [⟨tx2_hsp_region, false, ps_mem_flags.PS_MEM_NORMAL⟩])
    else
      let dim := readReg m (base + HSP_INT_DIMENSION_OFFSET)
      let num_sm := (dim >>> HSP_INT_DIMENSION_SM_SHIFT) &&& HSP_INT_DIMENSION_NUM_MASK
      let num_ss := (dim >>> HSP_INT_DIMENSION_SS_SHIFT) &&& HSP_INT_DIMENSION_NUM_MASK
      let num_as := (dim >>> HSP_INT_DIMENSION_AS_SHIFT) &&& HSP_INT_DIMENSION_NUM_MASK
      (0, some ⟨base, base + (1 + num_sm / 2 + num_ss + num_as) * 0x10000⟩,
       [⟨tx2_hsp_region, false, ps_mem_flags.PS_MEM_NORMAL⟩])

/-- `tx2_hsp_destroy`.  Returns the C return value, the handle contents after
the call, and the unmap invocations issued (virtual address, length, and the
service's internal outcome, which `ps_io_unmap` cannot report back).  The
source returns 0 unconditionally after the null checks. -/
def tx2_hsp_destroy (io_ops : Option ps_io_ops_t) (hsp : Option tx2_hsp_t) :
    Int × Option tx2_hsp_t × List (Nat × Nat × Bool) :=
  match io_ops, hsp with
  | none, _ => (-EINVAL, hsp, [])
  | some _, none => (-EINVAL, none, [])
  | some ops, some h =>
    if h.hsp_base ≠ 0 then
      (0, some h, [(h.hsp_base, tx2_hsp_region.length, ops.unmap_ok h.hsp_base tx2_hsp_region.length)])
    else
      (0, some h, [])

/-- `tx2_hsp_doorbell_ring`.  Returns the C return value, the handle contents
after the call, the register state after the call, and the register accesses
performed. -/
def tx2_hsp_doorbell_ring (hsp : Option tx2_hsp_t) (db_id : Int) (m : Mem) :
    Int × Option tx2_hsp_t × Mem × List Access :=
  match hsp with
  | none => (-EINVAL, none, m, [])
  | some h =>
    if check_doorbell_id_is_valid db_id = false then
      (-EINVAL, some h, m, [])
    else
      let trigger_reg := tx2_hsp_get_doorbell_register h db_id DBELL_TRIGGER
      (0, some h, writeReg m trigger_reg 1, [Access.write trigger_reg 1])

/-- The id-to-pending-bit table: the `switch (db_id)` in
`tx2_hsp_doorbell_check`, with `none` standing for the `default:` branch
(`ZF_LOGF`, a fatal log-and-abort). -/
def dbell_bitmap (db_id : Int) : Option Nat :=
  if db_id = CCPLEX_PM_DBELL ∨ db_id = CCPLEX_TZ_UNSECURE_DBELL ∨ db_id = CCPLEX_TZ_SECURE_DBELL then
    some CCPLEX_BIT
  else if db_id = BPMP_DBELL then some BPMP_BIT
  else if db_id = SPE_DBELL then some SPE_BIT
  else if db_id = SCE_DBELL then some SCE_BIT
  else if db_id = APE_DBELL then some APE_BIT
  else none

/-- Outcome of `tx2_hsp_doorbell_check`: either the fatal `ZF_LOGF` abort of
the unreachable `default:` branch, or a normal return carrying the C return
value, the handle contents, the register state, and the accesses performed. -/
inductive CheckOutcome where
  | fatal
  | ok (ret : Int) (hsp : Option tx2_hsp_t) (m : Mem) (log : List Access)

/-- `tx2_hsp_doorbell_check`.  The pending test uses the TrustZone non-secure
half of the bitfield (`bitmap_offset << 16`); on a set bit the source clears
it with the read-modify-write `*pending_reg &= ~(...)`, which performs a
second load of the register. -/
def tx2_hsp_doorbell_check (hsp : Option tx2_hsp_t) (db_id : Int) (m : Mem) : CheckOutcome :=
  match hsp with
  | none => CheckOutcome.ok (-EINVAL) none m []
  | some h =>
    if check_doorbell_id_is_valid db_id = false then
      CheckOutcome.ok (-EINVAL) (some h) m []
    else
      let pending_reg := tx2_hsp_get_doorbell_register h db_id DBELL_PENDING
      match dbell_bitmap db_id with
      | none => CheckOutcome.fatal
      | some bitmap_offset =>
        let mask := bitmap_offset <<< HSP_BITMAP_TZ_NONSECURE_SHIFT
        let is_pending := readReg m pending_reg &&& mask
        if is_pending ≠ 0 then
          let v := readReg m pending_reg &&& (0xFFFFFFFF ^^^ mask)
          CheckOutcome.ok 1 (some h) (writeReg m pending_reg v)
            [Access.read pending_reg, Access.read pending_reg, Access.write pending_reg v]
        else
          CheckOutcome.ok 0 (some h) m [Access.read pending_reg]

/-! ## Helper lemmas -/

/-- A valid doorbell id lies in `[0, 6]`. -/
lemma valid_id_bounds (db_id : Int) (hv : check_doorbell_id_is_valid db_id = true) :
    0 ≤ db_id ∧ db_id ≤ 6 := by
  simpa [check_doorbell_id_is_valid, CCPLEX_PM_DBELL, APE_DBELL, Bool.and_eq_true,
    decide_eq_true_eq] using hv

/-- The id-to-bit table covers every valid doorbell id. -/
lemma dbell_bitmap_isSome (db_id : Int) (hv : check_doorbell_id_is_valid db_id = true) :
    (dbell_bitmap db_id).isSome = true := by
  obtain ⟨hl, hr⟩ := valid_id_bounds db_id hv
  interval_cases db_id <;> decide

/-- Every bit produced by the id-to-bit table is nonzero and below `2 ^ 16`. -/
lemma dbell_bitmap_bound (db_id : Int) (b : Nat) (hb : dbell_bitmap db_id = some b) :
    0 < b ∧ b < 2 ^ 16 := by
  unfold dbell_bitmap at hb
  split_ifs at hb <;> simp only [Option.some.injEq] at hb <;> subst hb <;> decide

/-- The non-secure pending mask of every table entry fits in 32 bits. -/
lemma dbell_mask_lt (db_id : Int) (b : Nat) (hb : dbell_bitmap db_id = some b) :
    b <<< HSP_BITMAP_TZ_NONSECURE_SHIFT < 2 ^ 32 := by
  obtain ⟨-, hub⟩ := dbell_bitmap_bound db_id b hb
  have : b <<< HSP_BITMAP_TZ_NONSECURE_SHIFT = b * 2 ^ 16 := by
    simp [HSP_BITMAP_TZ_NONSECURE_SHIFT, Nat.shiftLeft_eq]
  rw [this]
  calc b * 2 ^ 16 < 2 ^ 16 * 2 ^ 16 := by
        exact Nat.mul_lt_mul_of_lt_of_le hub (le_refl _) (by norm_num)
    _ = 2 ^ 32 := by norm_num

/-- A register value loaded by `readReg` fits in 32 bits. -/
lemma readReg_lt (m : Mem) (a : Nat) : readReg m a < 2 ^ 32 :=
  Nat.mod_lt _ (by norm_num)

/-- Clearing through the 32-bit complement mask leaves the cleared bit zero. -/
lemma cleared_bit_stays_zero (x mask : Nat) (hm : mask < 2 ^ 32) :
    (x &&& (0xFFFFFFFF ^^^ mask)) &&& mask = 0 := by
  apply Nat.eq_of_testBit_eq
  intro i
  simp only [Nat.testBit_and, Nat.testBit_xor, Nat.zero_testBit]
  rcases lt_or_ge i 32 with hi | hi
  · have hK : (0xFFFFFFFF : Nat).testBit i = true := by
      have h32 : (0xFFFFFFFF : Nat) = 2 ^ 32 - 1 := by norm_num
      rw [h32, Nat.testBit_two_pow_sub_one]
      simpa using hi
    cases hmb : mask.testBit i <;> simp [hK, hmb]
  · have hmb : mask.testBit i = false :=
      Nat.testBit_eq_false_of_lt (lt_of_lt_of_le hm (Nat.pow_le_pow_right (by norm_num) hi))
    simp [hmb]

/-- Clearing through the 32-bit complement mask preserves every bit outside
the mask of a 32-bit value. -/
lemma clear_preserves_other_bits (x mask j : Nat) (hx : x < 2 ^ 32)
    (hj : mask.testBit j = false) :
    (x &&& (0xFFFFFFFF ^^^ mask)).testBit j = x.testBit j := by
  rcases lt_or_ge j 32 with hjl | hjg
  · have hK : (0xFFFFFFFF : Nat).testBit j = true := by
      have h32 : (0xFFFFFFFF : Nat) = 2 ^ 32 - 1 := by norm_num
      rw [h32, Nat.testBit_two_pow_sub_one]
      simpa using hjl
    simp [Nat.testBit_and, Nat.testBit_xor, hK, hj]
  · have hle : (2 : Nat) ^ 32 ≤ 2 ^ j := Nat.pow_le_pow_right (by norm_num) hjg
    have hxj : x.testBit j = false := Nat.testBit_eq_false_of_lt (lt_of_lt_of_le hx hle)
    have hand : (x &&& (0xFFFFFFFF ^^^ mask)) < 2 ^ j :=
      lt_of_le_of_lt Nat.and_le_left (lt_of_lt_of_le hx hle)
    rw [Nat.testBit_eq_false_of_lt hand, hxj]

/-- The clearing store writes a 32-bit value. -/
lemma cleared_value_lt (x mask : Nat) : x &&& (0xFFFFFFFF ^^^ mask) ≤ x :=
  Nat.and_le_left

/-! ## Concrete instances shared by the witness theorems -/

/-- A mapper whose map call succeeds at virtual base `0x1000`. -/
def opsW : ps_io_ops_t := ⟨fun _ _ _ => 0x1000, fun _ _ => true⟩

/-- A mapper whose unmap operation fails internally. -/
def opsFail : ps_io_ops_t := ⟨fun _ _ _ => 0x1000, fun _ _ => false⟩

/-- A handle with HSP base `0x1000` and doorbell base `0x70000`. -/
def hW : tx2_hsp_t := ⟨0x1000, 0x70000⟩

/-- A register state whose every register reads `0x124`
(dimension encoding numSM = 4, numSS = 2, numAS = 1). -/
def mW : Mem := fun _ => 0x124

/-- A register state whose every register reads `0x80000`
(the BPMP non-secure pending bit). -/
def mPend : Mem := fun _ => 0x80000

/-! ## Claim theorems -/

/-- C1: for every 32-bit value read from the dimension register at offset
0x380, init decodes numSM, numSS, numAS as the 4-bit fields at bit offsets
0, 4, 8 and stores
`doorbellBase = hspBase + (1 + numSM / 2 + numSS + numAS) * 0x10000` bytes in
the handle; for a dimension value `0x124` (numSM = 4, numSS = 2, numAS = 1)
the doorbell base offset from the HSP base is `0x60000`. -/
theorem init_decodes_dimension_register (ops : ps_io_ops_t) (h0 : tx2_hsp_t) (m : Mem)
    (base : Nat)
    (hmap : ops.pmem_map tx2_hsp_region false ps_mem_flags.PS_MEM_NORMAL = base)
    (hbase : base ≠ 0) :
    tx2_hsp_init (some ops) (some h0) m =
      (0,
       some ⟨base, base +
         (1 +
          ((readReg m (base + HSP_INT_DIMENSION_OFFSET) >>> HSP_INT_DIMENSION_SM_SHIFT) &&&
            HSP_INT_DIMENSION_NUM_MASK) / 2 +
          ((readReg m (base + HSP_INT_DIMENSION_OFFSET) >>> HSP_INT_DIMENSION_SS_SHIFT) &&&
            HSP_INT_DIMENSION_NUM_MASK) +
          ((readReg m (base + HSP_INT_DIMENSION_OFFSET) >>> HSP_INT_DIMENSION_AS_SHIFT) &&&
            HSP_INT_DIMENSION_NUM_MASK)) * 0x10000⟩,
       [⟨tx2_hsp_region, false, ps_mem_flags.PS_MEM_NORMAL⟩]) ∧
    (readReg m (base + HSP_INT_DIMENSION_OFFSET) = 0x124 →
      (tx2_hsp_init (some ops) (some h0) m).2.1 = some ⟨base, base + 0x60000⟩) := by
  constructor
  · simp [tx2_hsp_init, hmap, hbase]
  · intro hdim
    simp [tx2_hsp_init, hmap, hbase, hdim, HSP_INT_DIMENSION_SM_SHIFT,
      HSP_INT_DIMENSION_SS_SHIFT, HSP_INT_DIMENSION_AS_SHIFT, HSP_INT_DIMENSION_NUM_MASK]
    decide

/-- Witness for C1: a mapper returning base `0x1000` and a register state whose
dimension register reads `0x124` yield doorbell base `0x1000 + 0x60000`. -/
theorem init_decodes_dimension_register_witness :
    (opsW.pmem_map tx2_hsp_region false ps_mem_flags.PS_MEM_NORMAL = 0x1000 ∧
      (0x1000 : Nat) ≠ 0 ∧ readReg mW (0x1000 + HSP_INT_DIMENSION_OFFSET) = 0x124) ∧
    (tx2_hsp_init (some opsW) (some ⟨0, 0⟩) mW).2.1 = some ⟨0x1000, 0x61000⟩ :=
  ⟨⟨rfl, by decide, by decide⟩, by
    have h := (init_decodes_dimension_register opsW ⟨0, 0⟩ mW 0x1000 rfl (by decide)).2 (by decide)
    simpa using h⟩

/-- C3: for every valid doorbell id, ring writes exactly the value 1 to the
trigger register at byte address `doorbellBase + id * 0x100 + 0x0`, and writes
to no other address. -/
theorem ring_writes_one_to_trigger (h : tx2_hsp_t) (db_id : Int) (m : Mem)
    (hv : check_doorbell_id_is_valid db_id = true) :
    tx2_hsp_doorbell_ring (some h) db_id m =
      (0, some h,
       writeReg m (h.doorbell_base + db_id.toNat * 0x100 + 0x0) 1,
       [Access.write (h.doorbell_base + db_id.toNat * 0x100 + 0x0) 1]) ∧
    ∀ a, a ≠ h.doorbell_base + db_id.toNat * 0x100 + 0x0 →
      (tx2_hsp_doorbell_ring (some h) db_id m).2.2.1 a = m a := by
  have he : tx2_hsp_get_doorbell_register h db_id DBELL_TRIGGER =
      h.doorbell_base + db_id.toNat * 0x100 + 0x0 := by
    simp [tx2_hsp_get_doorbell_register, HSP_DOORBELL_BLOCK_STRIDE, DBELL_TRIGGER]
  constructor
  · simp [tx2_hsp_doorbell_ring, hv, he]
  · intro a ha
    have ha2 : a ≠ h.doorbell_base + db_id.toNat * 0x100 := by simpa using ha
    simp [tx2_hsp_doorbell_ring, hv, he, writeReg, ha2]

/-- Witness for C3: ringing the SPE doorbell on a concrete handle writes 1 to
`0x70000 + 4 * 0x100`. -/
theorem ring_writes_one_to_trigger_witness :
    check_doorbell_id_is_valid SPE_DBELL = true ∧
    (tx2_hsp_doorbell_ring (some hW) SPE_DBELL mW =
      (0, some hW,
       writeReg mW (hW.doorbell_base + SPE_DBELL.toNat * 0x100 + 0x0) 1,
       [Access.write (hW.doorbell_base + SPE_DBELL.toNat * 0x100 + 0x0) 1]) ∧
     ∀ a, a ≠ hW.doorbell_base + SPE_DBELL.toNat * 0x100 + 0x0 →
      (tx2_hsp_doorbell_ring (some hW) SPE_DBELL mW).2.2.1 a = mW a) :=
  ⟨by decide, ring_writes_one_to_trigger hW SPE_DBELL mW (by decide)⟩

/-- C5: for every doorbell id below `CCPLEX_PM_DBELL` or above `APE_DBELL`,
and likewise for a NULL handle, both ring and check return `-EINVAL`, leave
the register state unchanged, and perform no register access. -/
theorem invalid_or_null_returns_einval (hsp : Option tx2_hsp_t) (db_id : Int) (m : Mem)
    (h : db_id < CCPLEX_PM_DBELL ∨ APE_DBELL < db_id ∨ hsp = none) :
    tx2_hsp_doorbell_ring hsp db_id m = (-EINVAL, hsp, m, []) ∧
    tx2_hsp_doorbell_check hsp db_id m = CheckOutcome.ok (-EINVAL) hsp m [] := by
  match hsp with
  | none => exact ⟨rfl, rfl⟩
  | some hh =>
    have hf : check_doorbell_id_is_valid db_id = false := by
      rcases h with h | h | h
      · simp only [CCPLEX_PM_DBELL] at h
        simp only [check_doorbell_id_is_valid, CCPLEX_PM_DBELL, APE_DBELL,
          Bool.and_eq_false_iff, decide_eq_false_iff_not, not_le]
        left
        exact h
      · simp only [APE_DBELL] at h
        simp only [check_doorbell_id_is_valid, CCPLEX_PM_DBELL, APE_DBELL,
          Bool.and_eq_false_iff, decide_eq_false_iff_not, not_le]
        right
        exact h
      · exact Option.noConfusion h
    constructor
    · simp [tx2_hsp_doorbell_ring, hf]
    · simp [tx2_hsp_doorbell_check, hf]

/-- Witness for C5: doorbell id 7 is rejected by both operations with no
register access. -/
theorem invalid_or_null_returns_einval_witness :
    ((7 : Int) < CCPLEX_PM_DBELL ∨ APE_DBELL < (7 : Int) ∨ (some hW) = none) ∧
    (tx2_hsp_doorbell_ring (some hW) 7 mW = (-EINVAL, some hW, mW, []) ∧
     tx2_hsp_doorbell_check (some hW) 7 mW = CheckOutcome.ok (-EINVAL) (some hW) mW []) :=
  ⟨by decide, invalid_or_null_returns_einval (some hW) 7 mW (by decide)⟩

/-- C6: init issues exactly one mapping request to the service, for the fixed
HSP physical region (type `PMEM_TYPE_DEVICE`, fixed base and length) with the
cacheability argument `false` (uncached); the access-pattern hint is
`PS_MEM_NORMAL`. -/
theorem init_requests_device_uncached_mapping (ops : ps_io_ops_t) (h0 : tx2_hsp_t) (m : Mem) :
    (tx2_hsp_init (some ops) (some h0) m).2.2 =
      [⟨tx2_hsp_region, false, ps_mem_flags.PS_MEM_NORMAL⟩] ∧
    tx2_hsp_region.type = pmem_type.PMEM_TYPE_DEVICE ∧
    tx2_hsp_region.base_addr = TX2_HSP_PADDR ∧
    tx2_hsp_region.length = TX2_HSP_SIZE := by
  refine ⟨?_, rfl, rfl, rfl⟩
  simp only [tx2_hsp_init]
  split <;> rfl

/-- C7 counterexample: with a non-null mapper whose unmap operation fails
internally and a handle with a valid mapped base, destroy still returns 0
(success), not an error; the unmap invocation with its failed outcome is
recorded in the log. -/
theorem destroy_reports_success_on_unmap_failure_cex :
    (tx2_hsp_destroy (some opsFail) (some hW)).1 = 0 ∧
    (tx2_hsp_destroy (some opsFail) (some hW)).2.2 = [(0x1000, TX2_HSP_SIZE, false)] ∧
    ¬ (tx2_hsp_destroy (some opsFail) (some hW)).1 < 0 := by
  refine ⟨by decide, by decide, by decide⟩

/-- C7 amended: destroy with non-null mapper and handle returns 0 (success)
regardless of the internal outcome of the unmap operation; the unmap
primitive returns no status to its caller, so no failure can be reported. -/
theorem destroy_returns_zero_for_nonnull_args (ops : ps_io_ops_t) (h : tx2_hsp_t) :
    (tx2_hsp_destroy (some ops) (some h)).1 = 0 := by
  simp only [tx2_hsp_destroy]
  split <;> rfl

/-- C9: every doorbell id that passes the range validation has an entry in the
id-to-bit table, so check never reaches the fatal default branch of the
mapping switch. -/
theorem valid_id_never_hits_fatal_default (db_id : Int)
    (hv : check_doorbell_id_is_valid db_id = true) :
    (dbell_bitmap db_id).isSome = true ∧
    ∀ (h : tx2_hsp_t) (m : Mem),
      tx2_hsp_doorbell_check (some h) db_id m ≠ CheckOutcome.fatal := by
  refine ⟨dbell_bitmap_isSome db_id hv, ?_⟩
  intro h m
  obtain ⟨b, hb⟩ := Option.isSome_iff_exists.mp (dbell_bitmap_isSome db_id hv)
  simp only [tx2_hsp_doorbell_check, hv, Bool.true_eq_false, if_false, hb]
  split <;> simp

/-- Witness for C9: doorbell id 0 is valid and check never aborts on it. -/
theorem valid_id_never_hits_fatal_default_witness :
    check_doorbell_id_is_valid CCPLEX_PM_DBELL = true ∧
    ((dbell_bitmap CCPLEX_PM_DBELL).isSome = true ∧
     ∀ (h : tx2_hsp_t) (m : Mem),
       tx2_hsp_doorbell_check (some h) CCPLEX_PM_DBELL m ≠ CheckOutcome.fatal) :=
  ⟨by decide, valid_id_never_hits_fatal_default CCPLEX_PM_DBELL (by decide)⟩

/-- C10: on every input and on both success and error paths, ring, check and
destroy leave the handle contents unchanged; only init writes the handle's
two address fields. -/
theorem operations_preserve_handle (hsp : Option tx2_hsp_t) (db_id : Int) (m : Mem)
    (io_ops : Option ps_io_ops_t) :
    (tx2_hsp_doorbell_ring hsp db_id m).2.1 = hsp ∧
    (∃ ret m2 log, tx2_hsp_doorbell_check hsp db_id m = CheckOutcome.ok ret hsp m2 log) ∧
    (tx2_hsp_destroy io_ops hsp).2.1 = hsp := by
  refine ⟨?_, ?_, ?_⟩
  · match hsp with
    | none => rfl
    | some h =>
      simp only [tx2_hsp_doorbell_ring]
      split <;> rfl
  · match hsp with
    | none => exact ⟨-EINVAL, m, [], rfl⟩
    | some h =>
      by_cases hv : check_doorbell_id_is_valid db_id = true
      · obtain ⟨b, hb⟩ := Option.isSome_iff_exists.mp (dbell_bitmap_isSome db_id hv)
        by_cases hp :
            readReg m (tx2_hsp_get_doorbell_register h db_id DBELL_PENDING) &&&
              (b <<< HSP_BITMAP_TZ_NONSECURE_SHIFT) ≠ 0
        · refine ⟨1,
            writeReg m (tx2_hsp_get_doorbell_register h db_id DBELL_PENDING)
              (readReg m (tx2_hsp_get_doorbell_register h db_id DBELL_PENDING) &&&
                (0xFFFFFFFF ^^^ (b <<< HSP_BITMAP_TZ_NONSECURE_SHIFT))),
            [Access.read (tx2_hsp_get_doorbell_register h db_id DBELL_PENDING),
             Access.read (tx2_hsp_get_doorbell_register h db_id DBELL_PENDING),
             Access.write (tx2_hsp_get_doorbell_register h db_id DBELL_PENDING)
               (readReg m (tx2_hsp_get_doorbell_register h db_id DBELL_PENDING) &&&
                 (0xFFFFFFFF ^^^ (b <<< HSP_BITMAP_TZ_NONSECURE_SHIFT)))], ?_⟩
          simp [tx2_hsp_doorbell_check, hv, hb, hp]
        · refine ⟨0, m,
            [Access.read (tx2_hsp_get_doorbell_register h db_id DBELL_PENDING)], ?_⟩
          simp [tx2_hsp_doorbell_check, hv, hb, hp]
      · have hf : check_doorbell_id_is_valid db_id = false := by
          simpa using hv
        exact ⟨-EINVAL, m, [], by simp [tx2_hsp_doorbell_check, hf]⟩
  · match io_ops, hsp with
    | none, _ => rfl
    | some _, none => rfl
    | some ops, some h =>
      simp only [tx2_hsp_destroy]
      split <;> rfl

/-- C2: for every valid doorbell id, check reads the PENDING register at
offset 0xc of the window `doorbellBase + id * 0x100`, tests the single bit
`DoorbellBit << 16`; if the bit is set it writes the pending register back
with exactly that bit cleared and returns 1 (true), and if the bit is not set
it performs no write and returns 0 (false). -/
theorem check_tests_and_clears_nonsecure_bit (h : tx2_hsp_t) (db_id : Int) (m : Mem) (b : Nat)
    (hv : check_doorbell_id_is_valid db_id = true)
    (hb : dbell_bitmap db_id = some b) :
    tx2_hsp_get_doorbell_register h db_id DBELL_PENDING =
      h.doorbell_base + db_id.toNat * 0x100 + 0xc ∧
    (readReg m (tx2_hsp_get_doorbell_register h db_id DBELL_PENDING) &&&
        (b <<< HSP_BITMAP_TZ_NONSECURE_SHIFT) ≠ 0 →
      tx2_hsp_doorbell_check (some h) db_id m =
        CheckOutcome.ok 1 (some h)
          (writeReg m (tx2_hsp_get_doorbell_register h db_id DBELL_PENDING)
            (readReg m (tx2_hsp_get_doorbell_register h db_id DBELL_PENDING) &&&
              (0xFFFFFFFF ^^^ (b <<< HSP_BITMAP_TZ_NONSECURE_SHIFT))))
          [Access.read (tx2_hsp_get_doorbell_register h db_id DBELL_PENDING),
           Access.read (tx2_hsp_get_doorbell_register h db_id DBELL_PENDING),
           Access.write (tx2_hsp_get_doorbell_register h db_id DBELL_PENDING)
             (readReg m (tx2_hsp_get_doorbell_register h db_id DBELL_PENDING) &&&
               (0xFFFFFFFF ^^^ (b <<< HSP_BITMAP_TZ_NONSECURE_SHIFT)))]) ∧
    (readReg m (tx2_hsp_get_doorbell_register h db_id DBELL_PENDING) &&&
        (b <<< HSP_BITMAP_TZ_NONSECURE_SHIFT) = 0 →
      tx2_hsp_doorbell_check (some h) db_id m =
        CheckOutcome.ok 0 (some h) m
          [Access.read (tx2_hsp_get_doorbell_register h db_id DBELL_PENDING)]) := by
  refine ⟨by simp [tx2_hsp_get_doorbell_register, HSP_DOORBELL_BLOCK_STRIDE, DBELL_PENDING],
    ?_, ?_⟩
  · intro hp
    simp [tx2_hsp_doorbell_check, hv, hb, hp]
  · intro hp
    simp [tx2_hsp_doorbell_check, hv, hb, hp]

/-- Witness for C2: on the BPMP doorbell with pending value `0x80000`
(BPMP bit 0x8 shifted by 16), check returns 1 and clears the register. -/
theorem check_tests_and_clears_nonsecure_bit_witness :
    (check_doorbell_id_is_valid BPMP_DBELL = true ∧
     dbell_bitmap BPMP_DBELL = some BPMP_BIT ∧
     readReg mPend (tx2_hsp_get_doorbell_register hW BPMP_DBELL DBELL_PENDING) &&&
       (BPMP_BIT <<< HSP_BITMAP_TZ_NONSECURE_SHIFT) ≠ 0) ∧
    tx2_hsp_doorbell_check (some hW) BPMP_DBELL mPend =
      CheckOutcome.ok 1 (some hW) (writeReg mPend 0x7030c 0)
        [Access.read 0x7030c, Access.read 0x7030c, Access.write 0x7030c 0] :=
  ⟨⟨by decide, by decide, by decide⟩,
    (check_tests_and_clears_nonsecure_bit hW BPMP_DBELL mPend BPMP_BIT
      (by decide) (by decide)).2.1 (by decide)⟩

/-- C4: for every valid doorbell id and register state on which check returns
true (the non-secure pending bit is set), an immediately following check on
the resulting register state returns false with no write: checking clears the
pending state. -/
theorem check_true_clears_second_check_false (h : tx2_hsp_t) (db_id : Int) (m : Mem) (b : Nat)
    (hv : check_doorbell_id_is_valid db_id = true)
    (hb : dbell_bitmap db_id = some b)
    (hp : readReg m (tx2_hsp_get_doorbell_register h db_id DBELL_PENDING) &&&
        (b <<< HSP_BITMAP_TZ_NONSECURE_SHIFT) ≠ 0) :
    ∃ m2 log,
      tx2_hsp_doorbell_check (some h) db_id m = CheckOutcome.ok 1 (some h) m2 log ∧
      tx2_hsp_doorbell_check (some h) db_id m2 =
        CheckOutcome.ok 0 (some h) m2
          [Access.read (tx2_hsp_get_doorbell_register h db_id DBELL_PENDING)] := by
  have hvlt : readReg m (tx2_hsp_get_doorbell_register h db_id DBELL_PENDING) &&&
      (0xFFFFFFFF ^^^ (b <<< HSP_BITMAP_TZ_NONSECURE_SHIFT)) < 2 ^ 32 :=
    lt_of_le_of_lt (cleared_value_lt _ _)
      (readReg_lt m (tx2_hsp_get_doorbell_register h db_id DBELL_PENDING))
  have hmod : (readReg m (tx2_hsp_get_doorbell_register h db_id DBELL_PENDING) &&&
      (0xFFFFFFFF ^^^ (b <<< HSP_BITMAP_TZ_NONSECURE_SHIFT))) % 2 ^ 32 =
      readReg m (tx2_hsp_get_doorbell_register h db_id DBELL_PENDING) &&&
      (0xFFFFFFFF ^^^ (b <<< HSP_BITMAP_TZ_NONSECURE_SHIFT)) :=
    Nat.mod_eq_of_lt hvlt
  have hread : readReg
      (writeReg m (tx2_hsp_get_doorbell_register h db_id DBELL_PENDING)
        (readReg m (tx2_hsp_get_doorbell_register h db_id DBELL_PENDING) &&&
          (0xFFFFFFFF ^^^ (b <<< HSP_BITMAP_TZ_NONSECURE_SHIFT))))
      (tx2_hsp_get_doorbell_register h db_id DBELL_PENDING) =
      readReg m (tx2_hsp_get_doorbell_register h db_id DBELL_PENDING) &&&
      (0xFFFFFFFF ^^^ (b <<< HSP_BITMAP_TZ_NONSECURE_SHIFT)) := by
    simp [readReg, writeReg, hmod]
    simpa [readReg] using hvlt
  have hzero : readReg
      (writeReg m (tx2_hsp_get_doorbell_register h db_id DBELL_PENDING)
        (readReg m (tx2_hsp_get_doorbell_register h db_id DBELL_PENDING) &&&
          (0xFFFFFFFF ^^^ (b <<< HSP_BITMAP_TZ_NONSECURE_SHIFT))))
      (tx2_hsp_get_doorbell_register h db_id DBELL_PENDING) &&&
      (b <<< HSP_BITMAP_TZ_NONSECURE_SHIFT) = 0 := by
    rw [hread]
    exact cleared_bit_stays_zero _ _ (dbell_mask_lt db_id b hb)
  refine ⟨writeReg m (tx2_hsp_get_doorbell_register h db_id DBELL_PENDING)
      (readReg m (tx2_hsp_get_doorbell_register h db_id DBELL_PENDING) &&&
        (0xFFFFFFFF ^^^ (b <<< HSP_BITMAP_TZ_NONSECURE_SHIFT))),
    [Access.read (tx2_hsp_get_doorbell_register h db_id DBELL_PENDING),
     Access.read (tx2_hsp_get_doorbell_register h db_id DBELL_PENDING),
     Access.write (tx2_hsp_get_doorbell_register h db_id DBELL_PENDING)
       (readReg m (tx2_hsp_get_doorbell_register h db_id DBELL_PENDING) &&&
         (0xFFFFFFFF ^^^ (b <<< HSP_BITMAP_TZ_NONSECURE_SHIFT)))], ?_, ?_⟩
  · simp [tx2_hsp_doorbell_check, hv, hb, hp]
  · simp [tx2_hsp_doorbell_check, hv, hb, hzero]

/-- Witness for C4: on the BPMP doorbell with pending value `0x80000`, the
first check returns 1 and the immediately following check returns 0. -/
theorem check_true_clears_second_check_false_witness :
    (check_doorbell_id_is_valid BPMP_DBELL = true ∧
     dbell_bitmap BPMP_DBELL = some BPMP_BIT ∧
     readReg mPend (tx2_hsp_get_doorbell_register hW BPMP_DBELL DBELL_PENDING) &&&
       (BPMP_BIT <<< HSP_BITMAP_TZ_NONSECURE_SHIFT) ≠ 0) ∧
    (∃ m2 log,
      tx2_hsp_doorbell_check (some hW) BPMP_DBELL mPend = CheckOutcome.ok 1 (some hW) m2 log ∧
      tx2_hsp_doorbell_check (some hW) BPMP_DBELL m2 =
        CheckOutcome.ok 0 (some hW) m2
          [Access.read (tx2_hsp_get_doorbell_register hW BPMP_DBELL DBELL_PENDING)]) :=
  ⟨⟨by decide, by decide, by decide⟩,
    check_true_clears_second_check_false hW BPMP_DBELL mPend BPMP_BIT
      (by decide) (by decide) (by decide)⟩

/-- C8: for every valid doorbell id, a check changes at most the single
non-secure pending bit `DoorbellBit << 16` of that id's own pending register:
every other byte address is exactly unchanged, and within the pending
register every bit outside that mask (all secure-world bits at shift 0 and
every other peer's non-secure bit) is unchanged. -/
theorem check_frames_other_bits_and_registers (h : tx2_hsp_t) (db_id : Int) (m : Mem) (b : Nat)
    (hv : check_doorbell_id_is_valid db_id = true)
    (hb : dbell_bitmap db_id = some b) :
    ∃ ret m2 log,
      tx2_hsp_doorbell_check (some h) db_id m = CheckOutcome.ok ret (some h) m2 log ∧
      (∀ a, a ≠ tx2_hsp_get_doorbell_register h db_id DBELL_PENDING → m2 a = m a) ∧
      (∀ j, (b <<< HSP_BITMAP_TZ_NONSECURE_SHIFT).testBit j = false →
        (readReg m2 (tx2_hsp_get_doorbell_register h db_id DBELL_PENDING)).testBit j =
        (readReg m (tx2_hsp_get_doorbell_register h db_id DBELL_PENDING)).testBit j) := by
  by_cases hp : readReg m (tx2_hsp_get_doorbell_register h db_id DBELL_PENDING) &&&
      (b <<< HSP_BITMAP_TZ_NONSECURE_SHIFT) ≠ 0
  · have hvlt : readReg m (tx2_hsp_get_doorbell_register h db_id DBELL_PENDING) &&&
        (0xFFFFFFFF ^^^ (b <<< HSP_BITMAP_TZ_NONSECURE_SHIFT)) < 2 ^ 32 :=
      lt_of_le_of_lt (cleared_value_lt _ _)
        (readReg_lt m (tx2_hsp_get_doorbell_register h db_id DBELL_PENDING))
    have hread : readReg
        (writeReg m (tx2_hsp_get_doorbell_register h db_id DBELL_PENDING)
          (readReg m (tx2_hsp_get_doorbell_register h db_id DBELL_PENDING) &&&
            (0xFFFFFFFF ^^^ (b <<< HSP_BITMAP_TZ_NONSECURE_SHIFT))))
        (tx2_hsp_get_doorbell_register h db_id DBELL_PENDING) =
        readReg m (tx2_hsp_get_doorbell_register h db_id DBELL_PENDING) &&&
        (0xFFFFFFFF ^^^ (b <<< HSP_BITMAP_TZ_NONSECURE_SHIFT)) := by
      simp [readReg, writeReg, Nat.mod_eq_of_lt hvlt]
      simpa [readReg] using hvlt
    refine ⟨1,
      writeReg m (tx2_hsp_get_doorbell_register h db_id DBELL_PENDING)
        (readReg m (tx2_hsp_get_doorbell_register h db_id DBELL_PENDING) &&&
          (0xFFFFFFFF ^^^ (b <<< HSP_BITMAP_TZ_NONSECURE_SHIFT))),
      [Access.read (tx2_hsp_get_doorbell_register h db_id DBELL_PENDING),
       Access.read (tx2_hsp_get_doorbell_register h db_id DBELL_PENDING),
       Access.write (tx2_hsp_get_doorbell_register h db_id DBELL_PENDING)
         (readReg m (tx2_hsp_get_doorbell_register h db_id DBELL_PENDING) &&&
           (0xFFFFFFFF ^^^ (b <<< HSP_BITMAP_TZ_NONSECURE_SHIFT)))], ?_, ?_, ?_⟩
    · simp [tx2_hsp_doorbell_check, hv, hb, hp]
    · intro a ha
      simp [writeReg, ha]
    · intro j hj
      rw [hread]
      exact clear_preserves_other_bits
        (readReg m (tx2_hsp_get_doorbell_register h db_id DBELL_PENDING))
        (b <<< HSP_BITMAP_TZ_NONSECURE_SHIFT) j
        (readReg_lt m (tx2_hsp_get_doorbell_register h db_id DBELL_PENDING)) hj
  · refine ⟨0, m, [Access.read (tx2_hsp_get_doorbell_register h db_id DBELL_PENDING)],
      ?_, fun a _ => rfl, fun j _ => rfl⟩
    simp [tx2_hsp_doorbell_check, hv, hb, hp]

/-- Witness for C8: on the BPMP doorbell with pending value `0x80000`, the
check leaves every other address and every bit outside `0x8 << 16`
unchanged. -/
theorem check_frames_other_bits_and_registers_witness :
    (check_doorbell_id_is_valid BPMP_DBELL = true ∧
     dbell_bitmap BPMP_DBELL = some BPMP_BIT) ∧
    (∃ ret m2 log,
      tx2_hsp_doorbell_check (some hW) BPMP_DBELL mPend =
        CheckOutcome.ok ret (some hW) m2 log ∧
      (∀ a, a ≠ tx2_hsp_get_doorbell_register hW BPMP_DBELL DBELL_PENDING → m2 a = mPend a) ∧
      (∀ j, (BPMP_BIT <<< HSP_BITMAP_TZ_NONSECURE_SHIFT).testBit j = false →
        (readReg m2 (tx2_hsp_get_doorbell_register hW BPMP_DBELL DBELL_PENDING)).testBit j =
        (readReg mPend (tx2_hsp_get_doorbell_register hW BPMP_DBELL DBELL_PENDING)).testBit j)) :=
  ⟨⟨by decide, by decide⟩,
    check_frames_other_bits_and_registers hW BPMP_DBELL mPend BPMP_BIT
      (by decide) (by decide)⟩

end Tx2Hsp
